import Mathlib

/-!
Verification of the per-connection request-handling pipeline of a small
static-file HTTP server.  The repository holds two variants of the handler:
a thread-per-connection variant (serverthread.cpp) and a fork-per-connection
variant (serverfork.cpp).  Both are embedded below as pure functions over
character lists; the socket is modelled by the list of bytes received and the
list of bytes sent, and the filesystem by a partial map from path to contents.
-/

/-- Byte strings are modelled as lists of characters. -/
abbrev Chars := List Char

/-- Convert a Lean string literal to the character-list representation. -/
def strChars (s : String) : Chars := s.toList

/-- Model of the C string view of a buffer: the bytes up to the first NUL.
All C string functions (strstr, sscanf, strlen) see only this much. -/
def cstr : Chars → Chars
  | [] => []
  | c :: rest => if c = '\x00' then [] else c :: cstr rest

/-- Model of strstr as a Boolean test: does the haystack contain the needle
as a contiguous substring? -/
def strstrB : Chars → Chars → Bool
  | [], pat => pat.isEmpty
  | c :: rest, pat => pat.isPrefixOf (c :: rest) || strstrB rest pat

/-- C's isspace over the default locale, the whitespace set used by sscanf. -/
def isSpaceC (c : Char) : Bool :=
  c = ' ' || c = '\t' || c = '\n' || c = '\x0b' || c = '\x0c' || c = '\r'

/-- Drop leading sscanf whitespace. -/
def skipWS : Chars → Chars
  | [] => []
  | c :: rest => if isSpaceC c then skipWS rest else c :: rest

/-- Take the maximal run of non-whitespace characters. -/
def tokTake : Chars → Chars
  | [] => []
  | c :: rest => if isSpaceC c then [] else c :: tokTake rest

/-- Model of one %s conversion of sscanf: skip whitespace, then read
non-whitespace characters, at most `width` of them when a field width is
given (as in %9s); a truncated token leaves its remaining characters in the
input for the next conversion.  Returns none when the input is exhausted
before any character is read (conversion failure). -/
def scanTok (width : Option Nat) (s : Chars) : Option (Chars × Chars) :=
  let s1 := skipWS s
  let raw := tokTake s1
  let tok := match width with
    | none => raw
    | some n => raw.take n
  if tok.isEmpty then none else some (tok, s1.drop tok.length)

/-- Model of `sscanf(buf, "%As %Bs %Cs") == 3`: three %s conversions in
sequence, with the given field widths; none when fewer than three succeed. -/
def sscanf3 (w1 w2 w3 : Option Nat) (s : Chars) :
    Option (Chars × Chars × Chars) :=
  match scanTok w1 s with
  | none => none
  | some (a, r1) =>
    match scanTok w2 r1 with
    | none => none
    | some (b, r2) =>
      match scanTok w3 r2 with
      | none => none
      | some (c, _) => some (a, b, c)

/-- The last two conversions of the request-line scan, shared by a GET and a
HEAD buffer that agree after the method token. -/
def parseTV (w2 w3 : Option Nat) (s : Chars) : Option (Chars × Chars) :=
  match scanTok w2 s with
  | none => none
  | some (t, r2) =>
    match scanTok w3 r2 with
    | none => none
    | some (v, _) => some (t, v)

/-- serverthread.cpp get_mime_type: a chain of strstr tests in source order.
Note the test for ".js" precedes the test for ".json". -/
def get_mime_type (filename : Chars) : Chars :=
  if strstrB filename (strChars ".html") then strChars "text/html"
  else if strstrB filename (strChars ".htm") then strChars "text/html"
  else if strstrB filename (strChars ".txt") then strChars "text/plain"
  else if strstrB filename (strChars ".jpg") then strChars "image/jpeg"
  else if strstrB filename (strChars ".jpeg") then strChars "image/jpeg"
  else if strstrB filename (strChars ".png") then strChars "image/png"
  else if strstrB filename (strChars ".css") then strChars "text/css"
  else if strstrB filename (strChars ".js") then strChars "application/javascript"
  else if strstrB filename (strChars ".json") then strChars "application/json"
  else if strstrB filename (strChars ".pdf") then strChars "application/pdf"
  else strChars "application/octet-stream"

/-- Path adjustment shared by both variants: strip exactly one leading '/',
then substitute index.html for an empty remainder. -/
def resolvePath (t : Chars) : Chars :=
  let p := match t with
    | '/' :: rest => rest
    | other => other
  if p.isEmpty then strChars "index.html" else p

/-- The literal header-block terminator. -/
def crlf2 : Chars := strChars "\r\n\r\n"

/-- The literal traversal marker. -/
def dotdot : Chars := strChars ".."

def respMalformed : Chars :=
  strChars "HTTP/1.1 400 Bad Request\r\n\r\nMalformed request line.\r\n"

def respBadMethod : Chars :=
  strChars "HTTP/1.1 405 Method Not Allowed\r\n\r\nSupported methods: GET, HEAD.\r\n"

def respBadVersion : Chars :=
  strChars "HTTP/1.1 505 HTTP Version Not Supported\r\n\r\n"

def respBadPath : Chars :=
  strChars "HTTP/1.1 403 Forbidden\r\n\r\nInvalid path.\r\n"

def respNotFoundThread : Chars :=
  strChars "HTTP/1.1 404 Not Found\r\n\r\nThe requested file was not found.\r\n"

def respNotFoundFork : Chars :=
  strChars "HTTP/1.1 404 Not Found\r\n\r\nThe requested file does not exist.\r\n"

def respAllocFail : Chars :=
  strChars "HTTP/1.1 500 Internal Server Error\r\n\r\nMemory allocation failed.\r\n"

def respIncomplete : Chars :=
  strChars "HTTP/1.1 400 Bad Request\r\n\r\nIncomplete HTTP request.\r\n"

def respMissingHost : Chars :=
  strChars "HTTP/1.1 400 Bad Request\r\n\r\nHost header is required.\r\n"

/-- Decimal rendering of a natural number, as %d renders the sizes here. -/
def natChars (n : Nat) : Chars := (Nat.repr n).toList

/-- The 200 header block of serverthread.cpp (snprintf at lines 121-126). -/
def threadHeader (n : Nat) (mime : Chars) : Chars :=
  strChars "HTTP/1.1 200 OK\r\nContent-Length: " ++ natChars n ++
  strChars "\r\nContent-Type: " ++ mime ++
  strChars "\r\nConnection: close\r\n\r\n"

/-- The 200 header block of serverfork.cpp (snprintf at lines 162-164):
Content-Type is the fixed literal text/html. -/
def forkHeader (n : Nat) : Chars :=
  strChars "HTTP/1.1 200 OK\r\nContent-Length: " ++ natChars n ++
  strChars "\r\nConnection: close\r\nContent-Type: text/html\r\n\r\n"

/-- Observable outcome of handling one connection: the bytes written to the
socket, and the paths passed to fopen, in order. -/
structure Outcome where
  sent : Chars
  opened : List Chars
deriving DecidableEq

/-- serverthread.cpp process_client_request, after the receive loop: operates
on the final buffer contents.  The filesystem is `fs` (path to contents) and
`allocOk` tells whether malloc for the body succeeds. -/
def threadProcess (fs : Chars → Option Chars) (allocOk : Bool) (buf : Chars) :
    Outcome :=
  if strstrB (cstr buf) crlf2 = false then ⟨[], []⟩
  else
    match sscanf3 (some 9) (some 255) (some 9) (cstr buf) with
    | none => ⟨respMalformed, []⟩
    | some (m, t, v) =>
      if m ≠ strChars "GET" ∧ m ≠ strChars "HEAD" then ⟨respBadMethod, []⟩
      else if v ≠ strChars "HTTP/1.1" ∧ v ≠ strChars "HTTP/1.0" then
        ⟨respBadVersion, []⟩
      else if 2 < t.count '/' ∨ strstrB t dotdot then ⟨respBadPath, []⟩
      else
        match fs (resolvePath t) with
        | none => ⟨respNotFoundThread, [resolvePath t]⟩
        | some content =>
          if m = strChars "GET" then
            if allocOk then
              ⟨threadHeader content.length (get_mime_type (resolvePath t)) ++
                content, [resolvePath t]⟩
            else
              ⟨threadHeader content.length (get_mime_type (resolvePath t)) ++
                respAllocFail, [resolvePath t]⟩
          else
            ⟨threadHeader content.length (get_mime_type (resolvePath t)),
              [resolvePath t]⟩

/-- serverfork.cpp process_client_request: a single recv (none models a
return of zero or an error), then terminator check, unbounded %s parsing,
method, version and Host checks, and the file response.  No path sanitation
is present in this variant. -/
def forkProcess (fs : Chars → Option Chars) (allocOk : Bool)
    (recvd : Option Chars) : Outcome :=
  match recvd with
  | none => ⟨[], []⟩
  | some bytes =>
    if strstrB (cstr bytes) crlf2 = false then ⟨respIncomplete, []⟩
    else
      match sscanf3 none none none (cstr bytes) with
      | none => ⟨respMalformed, []⟩
      | some (m, t, v) =>
        if m ≠ strChars "GET" ∧ m ≠ strChars "HEAD" then ⟨respBadMethod, []⟩
        else if v ≠ strChars "HTTP/1.1" ∧ v ≠ strChars "HTTP/1.0" then
          ⟨respBadVersion, []⟩
        else if v = strChars "HTTP/1.1" ∧
            strstrB (cstr bytes) (strChars "\r\nHost:") = false ∧
            strstrB (cstr bytes) (strChars "\nHost:") = false then
          ⟨respMissingHost, []⟩
        else
          match fs (resolvePath t) with
          | none => ⟨respNotFoundFork, [resolvePath t]⟩
          | some content =>
            if m = strChars "GET" then
              if allocOk then ⟨forkHeader content.length ++ content, [resolvePath t]⟩
              else ⟨forkHeader content.length ++ respAllocFail, [resolvePath t]⟩
            else ⟨forkHeader content.length, [resolvePath t]⟩

/-- serverthread.cpp receive loop (lines 56-63): at most 100 recv attempts,
buffer capped at 8191 bytes; each chunk of the stream is what one recv call
returns (an empty chunk models a return of zero or an error); stop as soon as
the C-string view of the buffer contains the blank-line terminator. -/
def readLoop : Nat → Chars → List Chars → Chars
  | 0, buf, _ => buf
  | _ + 1, buf, [] => buf
  | a + 1, buf, chunk :: rest =>
    if 8191 ≤ buf.length then buf
    else if chunk.isEmpty then buf
    else
      let buf2 := buf ++ chunk.take (8191 - buf.length)
      if strstrB (cstr buf2) crlf2 then buf2 else readLoop a buf2 rest

/-- Full thread-variant pipeline: receive loop then processing. -/
def threadHandle (fs : Chars → Option Chars) (allocOk : Bool)
    (stream : List Chars) : Outcome :=
  threadProcess fs allocOk (readLoop 100 [] stream)

/-- An empty filesystem. -/
def fsEmpty : Chars → Option Chars := fun _ => none

lemma cstr_GET (X : Chars) :
    cstr (strChars "GET " ++ X) = strChars "GET " ++ cstr X := rfl

lemma cstr_HEAD (X : Chars) :
    cstr (strChars "HEAD " ++ X) = strChars "HEAD " ++ cstr X := rfl

lemma strstrB_GET_crlf2 (X : Chars) :
    strstrB (strChars "GET " ++ X) crlf2 = strstrB X crlf2 := rfl

lemma strstrB_HEAD_crlf2 (X : Chars) :
    strstrB (strChars "HEAD " ++ X) crlf2 = strstrB X crlf2 := rfl

lemma strstrB_GET_rnHost (X : Chars) :
    strstrB (strChars "GET " ++ X) (strChars "\r\nHost:") =
    strstrB X (strChars "\r\nHost:") := rfl

lemma strstrB_HEAD_rnHost (X : Chars) :
    strstrB (strChars "HEAD " ++ X) (strChars "\r\nHost:") =
    strstrB X (strChars "\r\nHost:") := rfl

lemma strstrB_GET_nHost (X : Chars) :
    strstrB (strChars "GET " ++ X) (strChars "\nHost:") =
    strstrB X (strChars "\nHost:") := rfl

lemma strstrB_HEAD_nHost (X : Chars) :
    strstrB (strChars "HEAD " ++ X) (strChars "\nHost:") =
    strstrB X (strChars "\nHost:") := rfl

lemma scanTok_space (w : Option Nat) (X : Chars) :
    scanTok w (' ' :: X) = scanTok w X := rfl

lemma scanTok_GET9 (X : Chars) :
    scanTok (some 9) (strChars "GET " ++ X) =
    some (strChars "GET", ' ' :: X) := rfl

lemma scanTok_HEAD9 (X : Chars) :
    scanTok (some 9) (strChars "HEAD " ++ X) =
    some (strChars "HEAD", ' ' :: X) := rfl

lemma scanTok_GETnone (X : Chars) :
    scanTok none (strChars "GET " ++ X) =
    some (strChars "GET", ' ' :: X) := rfl

lemma scanTok_HEADnone (X : Chars) :
    scanTok none (strChars "HEAD " ++ X) =
    some (strChars "HEAD", ' ' :: X) := rfl

lemma sscanf3_GET9 (X : Chars) :
    sscanf3 (some 9) (some 255) (some 9) (strChars "GET " ++ X) =
      match parseTV (some 255) (some 9) X with
      | none => none
      | some (t, v) => some (strChars "GET", t, v) := by
  unfold sscanf3 parseTV
  rw [scanTok_GET9]
  dsimp only []
  rw [scanTok_space]
  cases h1 : scanTok (some 255) X with
  | none => rfl
  | some p =>
    cases p with
    | mk t r2 =>
      dsimp only []
      cases h2 : scanTok (some 9) r2 with
      | none => rfl
      | some q => rfl

lemma sscanf3_HEAD9 (X : Chars) :
    sscanf3 (some 9) (some 255) (some 9) (strChars "HEAD " ++ X) =
      match parseTV (some 255) (some 9) X with
      | none => none
      | some (t, v) => some (strChars "HEAD", t, v) := by
  unfold sscanf3 parseTV
  rw [scanTok_HEAD9]
  dsimp only []
  rw [scanTok_space]
  cases h1 : scanTok (some 255) X with
  | none => rfl
  | some p =>
    cases p with
    | mk t r2 =>
      dsimp only []
      cases h2 : scanTok (some 9) r2 with
      | none => rfl
      | some q => rfl

lemma sscanf3_GETnone (X : Chars) :
    sscanf3 none none none (strChars "GET " ++ X) =
      match parseTV none none X with
      | none => none
      | some (t, v) => some (strChars "GET", t, v) := by
  unfold sscanf3 parseTV
  rw [scanTok_GETnone]
  dsimp only []
  rw [scanTok_space]
  cases h1 : scanTok none X with
  | none => rfl
  | some p =>
    cases p with
    | mk t r2 =>
      dsimp only []
      cases h2 : scanTok none r2 with
      | none => rfl
      | some q => rfl

lemma sscanf3_HEADnone (X : Chars) :
    sscanf3 none none none (strChars "HEAD " ++ X) =
      match parseTV none none X with
      | none => none
      | some (t, v) => some (strChars "HEAD", t, v) := by
  unfold sscanf3 parseTV
  rw [scanTok_HEADnone]
  dsimp only []
  rw [scanTok_space]
  cases h1 : scanTok none X with
  | none => rfl
  | some p =>
    cases p with
    | mk t r2 =>
      dsimp only []
      cases h2 : scanTok none r2 with
      | none => rfl
      | some q => rfl

/-- A filesystem holding the single two-byte file f. -/
def fsF : Chars → Option Chars :=
  fun p => if p = strChars "f" then some (strChars "hi") else none

/-- Claim C1 (counterexample): the fork variant performs no path sanitation:
for the request GET /../x HTTP/1.1 the server does not answer 403; it strips
the leading slash and attempts to open the file ../x (here absent, so 404).
The claim said such a request always yields 403 and no open attempt. -/
theorem c1_fork_counterexample :
    forkProcess fsEmpty true
      (some (strChars "GET /../x HTTP/1.1\r\nHost: a\r\n\r\n")) =
      ⟨respNotFoundFork, [strChars "../x"]⟩ ∧
    respNotFoundFork ≠ respBadPath := by decide

/-- Claim C1 (amended): in the thread variant, every request whose parsed
target contains the substring .. or more than two '/' characters is answered
403 Forbidden with body "Invalid path.", and no file open is attempted. -/
theorem c1_thread_path_guard (fs : Chars → Option Chars) (a : Bool)
    (b m t v : Chars)
    (hterm : strstrB (cstr b) crlf2 = true)
    (hparse : sscanf3 (some 9) (some 255) (some 9) (cstr b) = some (m, t, v))
    (hm : m = strChars "GET" ∨ m = strChars "HEAD")
    (hv : v = strChars "HTTP/1.1" ∨ v = strChars "HTTP/1.0")
    (hpath : 2 < t.count '/' ∨ strstrB t dotdot) :
    threadProcess fs a b = ⟨respBadPath, []⟩ := by
  unfold threadProcess
  rw [if_neg (show ¬ strstrB (cstr b) crlf2 = false by simp [hterm])]
  rw [hparse]
  dsimp only []
  rw [if_neg (show ¬ (m ≠ strChars "GET" ∧ m ≠ strChars "HEAD") by
        rcases hm with h | h <;> simp [h])]
  rw [if_neg (show ¬ (v ≠ strChars "HTTP/1.1" ∧ v ≠ strChars "HTTP/1.0") by
        rcases hv with h | h <;> simp [h])]
  rw [if_pos hpath]

/-- Claim C1 witness: a concrete traversal attempt is rejected by the thread
variant with 403 and no open attempt. -/
theorem c1_thread_path_guard_witness :
    threadProcess fsEmpty true (strChars "GET /../q HTTP/1.1\r\n\r\n") =
      ⟨respBadPath, []⟩ :=
  c1_thread_path_guard fsEmpty true (strChars "GET /../q HTTP/1.1\r\n\r\n")
    (strChars "GET") (strChars "/../q") (strChars "HTTP/1.1")
    (by decide) (by decide) (Or.inl rfl) (Or.inl rfl) (by decide)

/-- Claim C2 (code bug): a filename ending in .json is classified
application/javascript, not application/json, because get_mime_type tests
the substring .js before the substring .json. -/
theorem c2_json_misclassified :
    get_mime_type (strChars "data.json") = strChars "application/javascript" ∧
    get_mime_type (strChars "data.json") ≠ strChars "application/json" := by
  decide

/-- Claim C3 (counterexample): the thread variant never checks the Host
header: an HTTP/1.1 request with no Host header is served normally (here the
two-byte file f, with a 200 response), not answered 400. -/
theorem c3_thread_counterexample :
    threadProcess fsF true (strChars "GET /f HTTP/1.1\r\n\r\n") =
      ⟨threadHeader 2 (strChars "application/octet-stream") ++ strChars "hi",
        [strChars "f"]⟩ ∧
    (threadProcess fsF true (strChars "GET /f HTTP/1.1\r\n\r\n")).sent ≠
      respMissingHost := by decide

/-- Claim C3 (amended): the fork variant enforces the Host requirement: an
HTTP/1.1 request whose buffer contains neither CRLF-Host: nor LF-Host: is
answered 400 "Host header is required."; an HTTP/1.0 request is exempt and is
served when the file exists. -/
theorem c3_fork_host_check :
    (∀ (fs : Chars → Option Chars) (a : Bool) (b m t v : Chars),
      strstrB (cstr b) crlf2 = true →
      sscanf3 none none none (cstr b) = some (m, t, v) →
      (m = strChars "GET" ∨ m = strChars "HEAD") →
      v = strChars "HTTP/1.1" →
      strstrB (cstr b) (strChars "\r\nHost:") = false →
      strstrB (cstr b) (strChars "\nHost:") = false →
      forkProcess fs a (some b) = ⟨respMissingHost, []⟩) ∧
    (∀ (fs : Chars → Option Chars) (b t content : Chars),
      strstrB (cstr b) crlf2 = true →
      sscanf3 none none none (cstr b) =
        some (strChars "GET", t, strChars "HTTP/1.0") →
      fs (resolvePath t) = some content →
      forkProcess fs true (some b) =
        ⟨forkHeader content.length ++ content, [resolvePath t]⟩) := by
  constructor
  · intro fs a b m t v hterm hparse hm hv hr hn
    unfold forkProcess
    dsimp only []
    rw [if_neg (show ¬ strstrB (cstr b) crlf2 = false by simp [hterm])]
    rw [hparse]
    dsimp only []
    rw [if_neg (show ¬ (m ≠ strChars "GET" ∧ m ≠ strChars "HEAD") by
          rcases hm with h | h <;> simp [h])]
    rw [if_neg (show ¬ (v ≠ strChars "HTTP/1.1" ∧ v ≠ strChars "HTTP/1.0") by
          simp [hv])]
    rw [if_pos ⟨hv, hr, hn⟩]
  · intro fs b t content hterm hparse hfs
    unfold forkProcess
    dsimp only []
    rw [if_neg (show ¬ strstrB (cstr b) crlf2 = false by simp [hterm])]
    rw [hparse]
    dsimp only []
    rw [if_neg (show ¬ (strChars "GET" ≠ strChars "GET" ∧
          strChars "GET" ≠ strChars "HEAD") by simp)]
    rw [if_neg (show ¬ (strChars "HTTP/1.0" ≠ strChars "HTTP/1.1" ∧
          strChars "HTTP/1.0" ≠ strChars "HTTP/1.0") by simp)]
    rw [if_neg (show ¬ (strChars "HTTP/1.0" = strChars "HTTP/1.1" ∧
          strstrB (cstr b) (strChars "\r\nHost:") = false ∧
          strstrB (cstr b) (strChars "\nHost:") = false) by
          intro h
          exact absurd h.1 (by decide))]
    rw [hfs]
    dsimp only []
    rw [if_pos rfl, if_pos rfl]

/-- Claim C3 witness: concrete instances of both conjuncts of the amended
claim, on the fork variant. -/
theorem c3_fork_host_check_witness :
    forkProcess fsEmpty true (some (strChars "GET /x HTTP/1.1\r\n\r\n")) =
      ⟨respMissingHost, []⟩ ∧
    forkProcess fsF true (some (strChars "GET /f HTTP/1.0\r\n\r\n")) =
      ⟨forkHeader 2 ++ strChars "hi", [strChars "f"]⟩ :=
  ⟨c3_fork_host_check.1 fsEmpty true (strChars "GET /x HTTP/1.1\r\n\r\n")
      (strChars "GET") (strChars "/x") (strChars "HTTP/1.1")
      (by decide) (by decide) (Or.inl rfl) rfl (by decide) (by decide),
    c3_fork_host_check.2 fsF (strChars "GET /f HTTP/1.0\r\n\r\n")
      (strChars "/f") (strChars "hi") (by decide) (by decide) (by decide)⟩

set_option maxRecDepth 4000 in
/-- Claim C4 (counterexample): in the thread variant an Incomplete outcome is
not answered with a 400 response.  Here the peer sends 100 one-byte chunks
with no terminator, so the attempt budget is exhausted (Incomplete), and the
server closes silently: no bytes at all are written. -/
theorem c4_thread_incomplete_counterexample :
    threadHandle fsEmpty true (List.replicate 100 (strChars "a")) =
      ⟨[], []⟩ := by decide

/-- Claim C4 (amended): when the buffered bytes never contain the terminator,
the thread variant always closes silently (no response bytes, for Incomplete
and PeerClosed alike); the fork variant closes silently when its single read
returns zero or an error, and answers 400 "Incomplete HTTP request." when it
read data lacking the terminator.  In particular neither variant ever sends a
200 response without the terminator. -/
theorem c4_no_terminator_behaviour :
    (∀ (fs : Chars → Option Chars) (a : Bool) (s : List Chars),
      strstrB (cstr (readLoop 100 [] s)) crlf2 = false →
      threadHandle fs a s = ⟨[], []⟩) ∧
    (∀ (fs : Chars → Option Chars) (a : Bool),
      forkProcess fs a none = ⟨[], []⟩) ∧
    (∀ (fs : Chars → Option Chars) (a : Bool) (b : Chars),
      strstrB (cstr b) crlf2 = false →
      forkProcess fs a (some b) = ⟨respIncomplete, []⟩) := by
  refine ⟨?_, ?_, ?_⟩
  · intro fs a s h
    unfold threadHandle threadProcess
    rw [if_pos h]
  · intro fs a
    rfl
  · intro fs a b h
    unfold forkProcess
    dsimp only []
    rw [if_pos h]

/-- Claim C4 witness: concrete instances of the silent thread close and the
fork 400 on a terminator-less read. -/
theorem c4_no_terminator_behaviour_witness :
    threadHandle fsEmpty true [strChars "GET / HTTP/1.1\r\n"] = ⟨[], []⟩ ∧
    forkProcess fsEmpty true (some (strChars "GET / HTTP/1.1\r\n")) =
      ⟨respIncomplete, []⟩ :=
  ⟨c4_no_terminator_behaviour.1 fsEmpty true [strChars "GET / HTTP/1.1\r\n"]
      (by decide),
    c4_no_terminator_behaviour.2.2 fsEmpty true (strChars "GET / HTTP/1.1\r\n")
      (by decide)⟩

/-- Claim C6: for every well-formed GET request for an existing file (with
the body allocation succeeding), the bytes sent are exactly the 200 header
block, whose Content-Length is the file's byte count, followed by the file's
bytes, in both variants. -/
theorem c6_get_content_length :
    (∀ (fs : Chars → Option Chars) (b t v content : Chars),
      strstrB (cstr b) crlf2 = true →
      sscanf3 (some 9) (some 255) (some 9) (cstr b) =
        some (strChars "GET", t, v) →
      (v = strChars "HTTP/1.1" ∨ v = strChars "HTTP/1.0") →
      ¬ (2 < t.count '/' ∨ strstrB t dotdot) →
      fs (resolvePath t) = some content →
      threadProcess fs true b =
        ⟨threadHeader content.length (get_mime_type (resolvePath t)) ++
          content, [resolvePath t]⟩) ∧
    (∀ (fs : Chars → Option Chars) (b t v content : Chars),
      strstrB (cstr b) crlf2 = true →
      sscanf3 none none none (cstr b) = some (strChars "GET", t, v) →
      (v = strChars "HTTP/1.1" ∨ v = strChars "HTTP/1.0") →
      (v = strChars "HTTP/1.1" →
        strstrB (cstr b) (strChars "\r\nHost:") = true ∨
        strstrB (cstr b) (strChars "\nHost:") = true) →
      fs (resolvePath t) = some content →
      forkProcess fs true (some b) =
        ⟨forkHeader content.length ++ content, [resolvePath t]⟩) := by
  constructor
  · intro fs b t v content hterm hparse hv hpath hfs
    unfold threadProcess
    rw [if_neg (show ¬ strstrB (cstr b) crlf2 = false by simp [hterm])]
    rw [hparse]
    dsimp only []
    rw [if_neg (show ¬ (strChars "GET" ≠ strChars "GET" ∧
          strChars "GET" ≠ strChars "HEAD") by simp)]
    rw [if_neg (show ¬ (v ≠ strChars "HTTP/1.1" ∧ v ≠ strChars "HTTP/1.0") by
          rcases hv with h | h <;> simp [h])]
    rw [if_neg hpath]
    rw [hfs]
    dsimp only []
    rw [if_pos rfl, if_pos rfl]
  · intro fs b t v content hterm hparse hv hhost hfs
    unfold forkProcess
    dsimp only []
    rw [if_neg (show ¬ strstrB (cstr b) crlf2 = false by simp [hterm])]
    rw [hparse]
    dsimp only []
    rw [if_neg (show ¬ (strChars "GET" ≠ strChars "GET" ∧
          strChars "GET" ≠ strChars "HEAD") by simp)]
    rw [if_neg (show ¬ (v ≠ strChars "HTTP/1.1" ∧ v ≠ strChars "HTTP/1.0") by
          rcases hv with h | h <;> simp [h])]
    rw [if_neg (show ¬ (v = strChars "HTTP/1.1" ∧
          strstrB (cstr b) (strChars "\r\nHost:") = false ∧
          strstrB (cstr b) (strChars "\nHost:") = false) by
        rintro ⟨h1, h2, h3⟩
        rcases hhost h1 with hh | hh
        · rw [hh] at h2; simp at h2
        · rw [hh] at h3; simp at h3)]
    rw [hfs]
    dsimp only []
    rw [if_pos rfl, if_pos rfl]

/-- Claim C6 witness: a GET for the two-byte file f yields, in each variant,
the 200 header with Content-Length 2 followed by the two body bytes. -/
theorem c6_get_content_length_witness :
    threadProcess fsF true (strChars "GET /f HTTP/1.1\r\nHost: a\r\n\r\n") =
      ⟨threadHeader (strChars "hi").length
        (get_mime_type (resolvePath (strChars "/f"))) ++ strChars "hi",
        [resolvePath (strChars "/f")]⟩ ∧
    forkProcess fsF true (some (strChars "GET /f HTTP/1.1\r\nHost: a\r\n\r\n")) =
      ⟨forkHeader (strChars "hi").length ++ strChars "hi",
        [resolvePath (strChars "/f")]⟩ :=
  ⟨c6_get_content_length.1 fsF (strChars "GET /f HTTP/1.1\r\nHost: a\r\n\r\n")
      (strChars "/f") (strChars "HTTP/1.1") (strChars "hi")
      (by decide) (by decide) (Or.inl rfl) (by decide) (by decide),
    c6_get_content_length.2 fsF (strChars "GET /f HTTP/1.1\r\nHost: a\r\n\r\n")
      (strChars "/f") (strChars "HTTP/1.1") (strChars "hi")
      (by decide) (by decide) (Or.inl rfl) (fun _ => Or.inl (by decide))
      (by decide)⟩

/-- Claim C7: for every well-formed HEAD request for an existing file, the
bytes sent are exactly the 200 header block, whose Content-Length is the
file's byte count, with no body bytes, in both variants and regardless of
whether the body allocation would succeed. -/
theorem c7_head_no_body :
    (∀ (fs : Chars → Option Chars) (a : Bool) (b t v content : Chars),
      strstrB (cstr b) crlf2 = true →
      sscanf3 (some 9) (some 255) (some 9) (cstr b) =
        some (strChars "HEAD", t, v) →
      (v = strChars "HTTP/1.1" ∨ v = strChars "HTTP/1.0") →
      ¬ (2 < t.count '/' ∨ strstrB t dotdot) →
      fs (resolvePath t) = some content →
      threadProcess fs a b =
        ⟨threadHeader content.length (get_mime_type (resolvePath t)),
          [resolvePath t]⟩) ∧
    (∀ (fs : Chars → Option Chars) (a : Bool) (b t v content : Chars),
      strstrB (cstr b) crlf2 = true →
      sscanf3 none none none (cstr b) = some (strChars "HEAD", t, v) →
      (v = strChars "HTTP/1.1" ∨ v = strChars "HTTP/1.0") →
      (v = strChars "HTTP/1.1" →
        strstrB (cstr b) (strChars "\r\nHost:") = true ∨
        strstrB (cstr b) (strChars "\nHost:") = true) →
      fs (resolvePath t) = some content →
      forkProcess fs a (some b) =
        ⟨forkHeader content.length, [resolvePath t]⟩) := by
  constructor
  · intro fs a b t v content hterm hparse hv hpath hfs
    unfold threadProcess
    rw [if_neg (show ¬ strstrB (cstr b) crlf2 = false by simp [hterm])]
    rw [hparse]
    dsimp only []
    rw [if_neg (show ¬ (strChars "HEAD" ≠ strChars "GET" ∧
          strChars "HEAD" ≠ strChars "HEAD") by simp)]
    rw [if_neg (show ¬ (v ≠ strChars "HTTP/1.1" ∧ v ≠ strChars "HTTP/1.0") by
          rcases hv with h | h <;> simp [h])]
    rw [if_neg hpath]
    rw [hfs]
    dsimp only []
    rw [if_neg (show ¬ strChars "HEAD" = strChars "GET" by decide)]
  · intro fs a b t v content hterm hparse hv hhost hfs
    unfold forkProcess
    dsimp only []
    rw [if_neg (show ¬ strstrB (cstr b) crlf2 = false by simp [hterm])]
    rw [hparse]
    dsimp only []
    rw [if_neg (show ¬ (strChars "HEAD" ≠ strChars "GET" ∧
          strChars "HEAD" ≠ strChars "HEAD") by simp)]
    rw [if_neg (show ¬ (v ≠ strChars "HTTP/1.1" ∧ v ≠ strChars "HTTP/1.0") by
          rcases hv with h | h <;> simp [h])]
    rw [if_neg (show ¬ (v = strChars "HTTP/1.1" ∧
          strstrB (cstr b) (strChars "\r\nHost:") = false ∧
          strstrB (cstr b) (strChars "\nHost:") = false) by
        rintro ⟨h1, h2, h3⟩
        rcases hhost h1 with hh | hh
        · rw [hh] at h2; simp at h2
        · rw [hh] at h3; simp at h3)]
    rw [hfs]
    dsimp only []
    rw [if_neg (show ¬ strChars "HEAD" = strChars "GET" by decide)]

/-- Claim C7 witness: a HEAD for the two-byte file f yields only the header
block in each variant, even with a failing allocator. -/
theorem c7_head_no_body_witness :
    threadProcess fsF false (strChars "HEAD /f HTTP/1.1\r\nHost: a\r\n\r\n") =
      ⟨threadHeader (strChars "hi").length
        (get_mime_type (resolvePath (strChars "/f"))),
        [resolvePath (strChars "/f")]⟩ ∧
    forkProcess fsF false (some (strChars "HEAD /f HTTP/1.1\r\nHost: a\r\n\r\n")) =
      ⟨forkHeader (strChars "hi").length, [resolvePath (strChars "/f")]⟩ :=
  ⟨c7_head_no_body.1 fsF false (strChars "HEAD /f HTTP/1.1\r\nHost: a\r\n\r\n")
      (strChars "/f") (strChars "HTTP/1.1") (strChars "hi")
      (by decide) (by decide) (Or.inl rfl) (by decide) (by decide),
    c7_head_no_body.2 fsF false (strChars "HEAD /f HTTP/1.1\r\nHost: a\r\n\r\n")
      (strChars "/f") (strChars "HTTP/1.1") (strChars "hi")
      (by decide) (by decide) (Or.inl rfl) (fun _ => Or.inl (by decide))
      (by decide)⟩

/-- Claim C9: on a GET whose file opened but whose body allocation fails,
both variants send the 500 "Memory allocation failed." response after the
full 200 OK header block (with its Content-Length and Content-Type) has
already been written to the same stream. -/
theorem c9_alloc_fail_after_200 :
    (∀ (fs : Chars → Option Chars) (b t v content : Chars),
      strstrB (cstr b) crlf2 = true →
      sscanf3 (some 9) (some 255) (some 9) (cstr b) =
        some (strChars "GET", t, v) →
      (v = strChars "HTTP/1.1" ∨ v = strChars "HTTP/1.0") →
      ¬ (2 < t.count '/' ∨ strstrB t dotdot) →
      fs (resolvePath t) = some content →
      threadProcess fs false b =
        ⟨threadHeader content.length (get_mime_type (resolvePath t)) ++
          respAllocFail, [resolvePath t]⟩) ∧
    (∀ (fs : Chars → Option Chars) (b t v content : Chars),
      strstrB (cstr b) crlf2 = true →
      sscanf3 none none none (cstr b) = some (strChars "GET", t, v) →
      (v = strChars "HTTP/1.1" ∨ v = strChars "HTTP/1.0") →
      (v = strChars "HTTP/1.1" →
        strstrB (cstr b) (strChars "\r\nHost:") = true ∨
        strstrB (cstr b) (strChars "\nHost:") = true) →
      fs (resolvePath t) = some content →
      forkProcess fs false (some b) =
        ⟨forkHeader content.length ++ respAllocFail, [resolvePath t]⟩) := by
  constructor
  · intro fs b t v content hterm hparse hv hpath hfs
    unfold threadProcess
    rw [if_neg (show ¬ strstrB (cstr b) crlf2 = false by simp [hterm])]
    rw [hparse]
    dsimp only []
    rw [if_neg (show ¬ (strChars "GET" ≠ strChars "GET" ∧
          strChars "GET" ≠ strChars "HEAD") by simp)]
    rw [if_neg (show ¬ (v ≠ strChars "HTTP/1.1" ∧ v ≠ strChars "HTTP/1.0") by
          rcases hv with h | h <;> simp [h])]
    rw [if_neg hpath]
    rw [hfs]
    dsimp only []
    rw [if_pos rfl]
    rw [if_neg (show ¬ (false : Bool) = true by simp)]
  · intro fs b t v content hterm hparse hv hhost hfs
    unfold forkProcess
    dsimp only []
    rw [if_neg (show ¬ strstrB (cstr b) crlf2 = false by simp [hterm])]
    rw [hparse]
    dsimp only []
    rw [if_neg (show ¬ (strChars "GET" ≠ strChars "GET" ∧
          strChars "GET" ≠ strChars "HEAD") by simp)]
    rw [if_neg (show ¬ (v ≠ strChars "HTTP/1.1" ∧ v ≠ strChars "HTTP/1.0") by
          rcases hv with h | h <;> simp [h])]
    rw [if_neg (show ¬ (v = strChars "HTTP/1.1" ∧
          strstrB (cstr b) (strChars "\r\nHost:") = false ∧
          strstrB (cstr b) (strChars "\nHost:") = false) by
        rintro ⟨h1, h2, h3⟩
        rcases hhost h1 with hh | hh
        · rw [hh] at h2; simp at h2
        · rw [hh] at h3; simp at h3)]
    rw [hfs]
    dsimp only []
    rw [if_pos rfl]
    rw [if_neg (show ¬ (false : Bool) = true by simp)]

/-- Claim C9 witness: a GET for the two-byte file f with a failing allocator
yields the 200 header block followed by the 500 response, in each variant. -/
theorem c9_alloc_fail_after_200_witness :
    threadProcess fsF false (strChars "GET /f HTTP/1.1\r\nHost: a\r\n\r\n") =
      ⟨threadHeader (strChars "hi").length
        (get_mime_type (resolvePath (strChars "/f"))) ++ respAllocFail,
        [resolvePath (strChars "/f")]⟩ ∧
    forkProcess fsF false (some (strChars "GET /f HTTP/1.1\r\nHost: a\r\n\r\n")) =
      ⟨forkHeader (strChars "hi").length ++ respAllocFail,
        [resolvePath (strChars "/f")]⟩ :=
  ⟨c9_alloc_fail_after_200.1 fsF (strChars "GET /f HTTP/1.1\r\nHost: a\r\n\r\n")
      (strChars "/f") (strChars "HTTP/1.1") (strChars "hi")
      (by decide) (by decide) (Or.inl rfl) (by decide) (by decide),
    c9_alloc_fail_after_200.2 fsF (strChars "GET /f HTTP/1.1\r\nHost: a\r\n\r\n")
      (strChars "/f") (strChars "HTTP/1.1") (strChars "hi")
      (by decide) (by decide) (Or.inl rfl) (fun _ => Or.inl (by decide))
      (by decide)⟩

lemma readLoop_len (a : Nat) :
    ∀ (buf : Chars) (s : List Chars), buf.length ≤ 8191 →
      (readLoop a buf s).length ≤ 8191 := by
  induction a with
  | zero => intro buf s h; exact h
  | succ n ih =>
    intro buf s h
    cases s with
    | nil => exact h
    | cons chunk rest =>
      unfold readLoop
      by_cases hc : 8191 ≤ buf.length
      · rw [if_pos hc]; exact h
      · rw [if_neg hc]
        by_cases he : chunk.isEmpty
        · rw [if_pos he]; exact h
        · rw [if_neg he]
          dsimp only []
          have h1 : (chunk.take (8191 - buf.length)).length ≤ 8191 - buf.length := by
            rw [List.length_take]; exact Nat.min_le_left _ _
          have hlen : (buf ++ chunk.take (8191 - buf.length)).length ≤ 8191 := by
            rw [List.length_append]; omega
          by_cases ht : strstrB (cstr (buf ++ chunk.take (8191 - buf.length))) crlf2
          · rw [if_pos ht]; exact hlen
          · rw [if_neg ht]; exact ih _ rest hlen

lemma readLoop_take (a : Nat) :
    ∀ (buf : Chars) (s : List Chars),
      readLoop a buf s = readLoop a buf (s.take a) := by
  induction a with
  | zero => intro buf s; rfl
  | succ n ih =>
    intro buf s
    cases s with
    | nil => rfl
    | cons chunk rest =>
      show readLoop (n + 1) buf (chunk :: rest) =
        readLoop (n + 1) buf (chunk :: rest.take n)
      unfold readLoop
      by_cases hc : 8191 ≤ buf.length
      · rw [if_pos hc, if_pos hc]
      · rw [if_neg hc, if_neg hc]
        by_cases he : chunk.isEmpty
        · rw [if_pos he, if_pos he]
        · rw [if_neg he, if_neg he]
          dsimp only []
          by_cases ht : strstrB (cstr (buf ++ chunk.take (8191 - buf.length))) crlf2
          · rw [if_pos ht, if_pos ht]
          · rw [if_neg ht, if_neg ht]
            exact ih _ rest

lemma readLoop_cap (a : Nat) (buf : Chars) (s : List Chars)
    (h : 8191 ≤ buf.length) : readLoop a buf s = buf := by
  cases a with
  | zero => rfl
  | succ n =>
    cases s with
    | nil => rfl
    | cons chunk rest => unfold readLoop; rw [if_pos h]

/-- Claim C8: the thread receive loop performs at most 100 read attempts (its
result depends only on the first 100 chunks of the stream), accumulates at
most 8191 bytes, and stops at once when the attempt budget is exhausted, when
the buffer cap is already reached, when a read returns zero or an error (an
empty chunk, or the stream ends), or as soon as the freshly appended bytes
make the buffer contain the terminator. -/
theorem c8_reader_bounds :
    (∀ s : List Chars, (readLoop 100 [] s).length ≤ 8191) ∧
    (∀ s : List Chars, readLoop 100 [] s = readLoop 100 [] (s.take 100)) ∧
    (∀ (buf : Chars) (s : List Chars), readLoop 0 buf s = buf) ∧
    (∀ (a : Nat) (buf : Chars) (s : List Chars),
      8191 ≤ buf.length → readLoop a buf s = buf) ∧
    (∀ (a : Nat) (buf : Chars), readLoop (a + 1) buf [] = buf) ∧
    (∀ (a : Nat) (buf : Chars) (rest : List Chars),
      readLoop (a + 1) buf ([] :: rest) = buf) ∧
    (∀ (a : Nat) (buf chunk : Chars) (rest : List Chars),
      ¬ 8191 ≤ buf.length → chunk.isEmpty = false →
      strstrB (cstr (buf ++ chunk.take (8191 - buf.length))) crlf2 = true →
      readLoop (a + 1) buf (chunk :: rest) =
        buf ++ chunk.take (8191 - buf.length)) := by
  refine ⟨fun s => readLoop_len 100 [] s (by simp),
    fun s => readLoop_take 100 [] s, fun buf s => rfl, readLoop_cap, ?_, ?_, ?_⟩
  · intro a buf
    rfl
  · intro a buf rest
    unfold readLoop
    by_cases hc : 8191 ≤ buf.length
    · rw [if_pos hc]
    · rw [if_neg hc, if_pos (show ([] : Chars).isEmpty = true from rfl)]
  · intro a buf chunk rest hc he ht
    unfold readLoop
    rw [if_neg hc]
    rw [if_neg (show ¬ chunk.isEmpty = true by simp [he])]
    dsimp only []
    rw [if_pos ht]

/-- Claim C8 witness: a concrete run in which the second chunk completes the
terminator and the loop returns the buffer immediately. -/
theorem c8_reader_bounds_witness :
    readLoop 3 (strChars "x") [strChars "y\r\n\r\n", strChars "z"] =
      strChars "x" ++ (strChars "y\r\n\r\n").take (8191 - (strChars "x").length) :=
  c8_reader_bounds.2.2.2.2.2.2 2 (strChars "x") (strChars "y\r\n\r\n")
    [strChars "z"] (by decide) (by decide) (by decide)

/-- Claim C10: on every error path (malformed request line, unsupported
version, invalid path in the thread variant, missing Host in the fork
variant, file not found) the bytes written are identical for a GET and a
HEAD request that agree on everything after the method token: the method is
not consulted on error paths, so a HEAD for a nonexistent file still receives
the 404 explanation text as body bytes. -/
theorem c10_error_bytes_method_blind :
    (∀ (fs : Chars → Option Chars) (a : Bool) (X : Chars),
      (parseTV (some 255) (some 9) (cstr X) = none ∨
        ∃ t v, parseTV (some 255) (some 9) (cstr X) = some (t, v) ∧
          ((v ≠ strChars "HTTP/1.1" ∧ v ≠ strChars "HTTP/1.0") ∨
            (2 < t.count '/' ∨ strstrB t dotdot = true) ∨
            fs (resolvePath t) = none)) →
      threadProcess fs a (strChars "GET " ++ X) =
        threadProcess fs a (strChars "HEAD " ++ X)) ∧
    (∀ (fs : Chars → Option Chars) (a : Bool) (X : Chars),
      (parseTV none none (cstr X) = none ∨
        ∃ t v, parseTV none none (cstr X) = some (t, v) ∧
          ((v ≠ strChars "HTTP/1.1" ∧ v ≠ strChars "HTTP/1.0") ∨
            (v = strChars "HTTP/1.1" ∧
              strstrB (cstr X) (strChars "\r\nHost:") = false ∧
              strstrB (cstr X) (strChars "\nHost:") = false) ∨
            fs (resolvePath t) = none)) →
      forkProcess fs a (some (strChars "GET " ++ X)) =
        forkProcess fs a (some (strChars "HEAD " ++ X))) := by
  constructor
  · intro fs a X herr
    unfold threadProcess
    rw [cstr_GET, cstr_HEAD]
    rw [strstrB_GET_crlf2, strstrB_HEAD_crlf2]
    by_cases hterm : strstrB (cstr X) crlf2 = false
    · rw [if_pos hterm, if_pos hterm]
    · rw [if_neg hterm, if_neg hterm]
      rw [sscanf3_GET9, sscanf3_HEAD9]
      cases hp : parseTV (some 255) (some 9) (cstr X) with
      | none => rfl
      | some tv =>
        cases tv with
        | mk t v =>
          dsimp only []
          rw [if_neg (show ¬ (strChars "GET" ≠ strChars "GET" ∧
                strChars "GET" ≠ strChars "HEAD") by simp)]
          rw [if_neg (show ¬ (strChars "HEAD" ≠ strChars "GET" ∧
                strChars "HEAD" ≠ strChars "HEAD") by simp)]
          by_cases hv : v ≠ strChars "HTTP/1.1" ∧ v ≠ strChars "HTTP/1.0"
          · rw [if_pos hv, if_pos hv]
          · rw [if_neg hv, if_neg hv]
            by_cases hpath : 2 < t.count '/' ∨ strstrB t dotdot = true
            · rw [if_pos hpath, if_pos hpath]
            · rw [if_neg hpath, if_neg hpath]
              cases hfs : fs (resolvePath t) with
              | none => rfl
              | some content =>
                exfalso
                rcases herr with hnone | ⟨t2, v2, hp2, hbad⟩
                · rw [hp] at hnone
                  simp at hnone
                · rw [hp] at hp2
                  simp only [Option.some.injEq, Prod.mk.injEq] at hp2
                  obtain ⟨e1, e2⟩ := hp2
                  subst e1
                  subst e2
                  rcases hbad with hb | hb | hb
                  · exact hv hb
                  · exact hpath hb
                  · rw [hfs] at hb
                    simp at hb
  · intro fs a X herr
    unfold forkProcess
    dsimp only []
    rw [cstr_GET, cstr_HEAD]
    rw [strstrB_GET_crlf2, strstrB_HEAD_crlf2]
    by_cases hterm : strstrB (cstr X) crlf2 = false
    · rw [if_pos hterm, if_pos hterm]
    · rw [if_neg hterm, if_neg hterm]
      rw [sscanf3_GETnone, sscanf3_HEADnone]
      cases hp : parseTV none none (cstr X) with
      | none => rfl
      | some tv =>
        cases tv with
        | mk t v =>
          dsimp only []
          rw [if_neg (show ¬ (strChars "GET" ≠ strChars "GET" ∧
                strChars "GET" ≠ strChars "HEAD") by simp)]
          rw [if_neg (show ¬ (strChars "HEAD" ≠ strChars "GET" ∧
                strChars "HEAD" ≠ strChars "HEAD") by simp)]
          by_cases hv : v ≠ strChars "HTTP/1.1" ∧ v ≠ strChars "HTTP/1.0"
          · rw [if_pos hv, if_pos hv]
          · rw [if_neg hv, if_neg hv]
            rw [strstrB_GET_rnHost, strstrB_HEAD_rnHost,
              strstrB_GET_nHost, strstrB_HEAD_nHost]
            by_cases hhost : v = strChars "HTTP/1.1" ∧
                strstrB (cstr X) (strChars "\r\nHost:") = false ∧
                strstrB (cstr X) (strChars "\nHost:") = false
            · rw [if_pos hhost, if_pos hhost]
            · rw [if_neg hhost, if_neg hhost]
              cases hfs : fs (resolvePath t) with
              | none => rfl
              | some content =>
                exfalso
                rcases herr with hnone | ⟨t2, v2, hp2, hbad⟩
                · rw [hp] at hnone
                  simp at hnone
                · rw [hp] at hp2
                  simp only [Option.some.injEq, Prod.mk.injEq] at hp2
                  obtain ⟨e1, e2⟩ := hp2
                  subst e1
                  subst e2
                  rcases hbad with hb | hb | hb
                  · exact hv hb
                  · exact hhost hb
                  · rw [hfs] at hb
                    simp at hb

/-- Claim C10 witness: the thread 404 error path and the fork missing-Host
error path (with the target file present, so only the Host check stops the
request) each produce byte-identical output for GET and HEAD. -/
theorem c10_error_bytes_method_blind_witness :
    (threadProcess fsEmpty true
        (strChars "GET " ++ strChars "/nope HTTP/1.1\r\n\r\n") =
      threadProcess fsEmpty true
        (strChars "HEAD " ++ strChars "/nope HTTP/1.1\r\n\r\n")) ∧
    (forkProcess fsF true
        (some (strChars "GET " ++ strChars "/f HTTP/1.1\r\n\r\n")) =
      forkProcess fsF true
        (some (strChars "HEAD " ++ strChars "/f HTTP/1.1\r\n\r\n"))) :=
  ⟨c10_error_bytes_method_blind.1 fsEmpty true
      (strChars "/nope HTTP/1.1\r\n\r\n")
      (Or.inr ⟨strChars "/nope", strChars "HTTP/1.1", by decide,
        Or.inr (Or.inr rfl)⟩),
    c10_error_bytes_method_blind.2 fsF true
      (strChars "/f HTTP/1.1\r\n\r\n")
      (Or.inr ⟨strChars "/f", strChars "HTTP/1.1", by decide,
        Or.inr (Or.inl ⟨rfl, by decide, by decide⟩)⟩)⟩
